import Mathlib

/-
Verification of the Pongi collision core against its specification.

The embedding translates `game_lib/src/scenes.rs` (the elastic response
resolver `move_sphere_with_full_elastic_collision`, the playing-field wall
construction of `GameplayScene::update_and_draw`) and
`game_lib/src/math.rs` (`Vec2`, `Rect`, `Line`, `Rect::to_border_lines`)
into Lean, with `f32` modelled as the real numbers.

The vector helpers `magnitude`, `normalized` and `reflected_on_normal`,
the `CollisionMesh` type with its `sweepcast_sphere` query, and the
constant `COLLISION_SAFETY_MARGIN` are declared in parts of the
repository that are not available here; they are modelled from the
specification (marked below).
-/

/-- Translated from `math.rs`: a 2D vector with `f32` (here real)
components. -/
@[ext]
structure Vec2 where
  x : ℝ
  y : ℝ

/-- Alias from `math.rs`: `pub type WorldPoint = Vec2`. -/
abbrev WorldPoint := Vec2

/-- Translated from `math.rs` (`impl Add<Vec2> for Vec2`):
element-wise addition. -/
def Vec2.add (a b : Vec2) : Vec2 :=
  Vec2.mk (a.x + b.x) (a.y + b.y)

instance : Add Vec2 :=
  Add.mk Vec2.add

/-- Translated from `math.rs` (`impl Sub<Vec2> for Vec2`):
element-wise subtraction. -/
def Vec2.sub (a b : Vec2) : Vec2 :=
  Vec2.mk (a.x - b.x) (a.y - b.y)

instance : Sub Vec2 :=
  Sub.mk Vec2.sub

/-- Translated from `math.rs` (`impl Mul<Vec2> for f32`): scaling of a
vector by a scalar. -/
def Vec2.smul (c : ℝ) (v : Vec2) : Vec2 :=
  Vec2.mk (c * v.x) (c * v.y)

instance : SMul ℝ Vec2 :=
  SMul.mk Vec2.smul

/-- Translated from `math.rs`: `Vec2::dot`. -/
def Vec2.dot (a b : Vec2) : ℝ :=
  a.x * b.x + a.y * b.y

/-- Modelled from the spec: `Vec2::magnitude` is not under `src/`
(spec section 3: `Vec2` supports "magnitude"); the Euclidean length. -/
noncomputable def Vec2.magnitude (v : Vec2) : ℝ :=
  Real.sqrt (v.x * v.x + v.y * v.y)

/-- Modelled from the spec: `Vec2::normalized` is not under `src/`
(spec section 3: `Vec2` supports "normalization"); the vector divided by
its magnitude. -/
noncomputable def Vec2.normalized (v : Vec2) : Vec2 :=
  Vec2.mk (v.x / v.magnitude) (v.y / v.magnitude)

/-- Modelled from the spec: `Vec2::reflected_on_normal` is not under
`src/`; the mirror formula of spec section 4.4, `d' = d - 2(d.n)n`. -/
def Vec2.reflected_on_normal (d n : Vec2) : Vec2 :=
  d - (2 * Vec2.dot d n) • n

/-- Translated from `math.rs`: axis-aligned rectangle with explicit
bounds. -/
structure Rect where
  left : ℝ
  right : ℝ
  bottom : ℝ
  top : ℝ

/-- Translated from `math.rs`: a directed segment. The source field
`end` is a Lean keyword and is rendered `stop` here. -/
structure Line where
  start : Vec2
  stop : Vec2

/-- Translated from `math.rs`: `Rect::to_border_lines`, the four border
segments of a rectangle, in source order. -/
def Rect.to_border_lines (r : Rect) : List Line :=
  [ Line.mk (Vec2.mk r.left r.bottom) (Vec2.mk r.right r.bottom),
    Line.mk (Vec2.mk r.right r.bottom) (Vec2.mk r.right r.top),
    Line.mk (Vec2.mk r.right r.top) (Vec2.mk r.left r.top),
    Line.mk (Vec2.mk r.left r.top) (Vec2.mk r.left r.bottom) ]

/-- Modelled from the spec (section 3): the contact point and surface
normal of the edge struck, as returned by the sweep-cast. -/
structure Intersection where
  point : Vec2
  normal : Vec2

/-- Modelled from the spec (section 3): the result of the sweep-cast
query (`shape` identity is for diagnostics only). -/
structure SweepResult where
  shape_name : String
  segment_index : Nat
  intersection : Intersection

/-- Modelled from the spec: `CollisionMesh` and its method
`sweepcast_sphere` are not under `src/`; a mesh is abstracted as its
sweep-cast query, taking the travel ray and the sphere radius and
returning the nearest hit, if any (spec section 4.3). -/
def CollisionMesh : Type :=
  Line → ℝ → Option SweepResult

/-- Translated from `scenes.rs` lines 397-398: the distance to the hit
point shortened by the safety margin,
`(collision.intersection.point - pos).magnitude() - COLLISION_SAFETY_MARGIN`.
The constant `COLLISION_SAFETY_MARGIN` is not under `src/` and is taken
as the parameter `margin`. -/
noncomputable def safe_collision_point_distance (margin : ℝ) (hit pos : Vec2) : ℝ :=
  (hit - pos).magnitude - margin

/-- Translated from `scenes.rs` lines 394-421: the reflection loop of
`move_sphere_with_full_elastic_collision`. The source counter
`debug_num_loops` counts up and aborts when it reaches 3; here the
remaining allowed loop-backs count down (`debug_loops_left`), which is
the same bound: the error fires exactly on the third processed
collision. The final `pos += travel_distance * dir` of line 422 is
executed on both exits of the source loop and is inlined into both
`Except.ok` branches. -/
noncomputable def collisionLoop (collision_mesh : CollisionMesh)
    (margin speed sphere_radius : ℝ) :
    Nat → Vec2 → Vec2 → Vec2 → ℝ → Except String (Vec2 × Vec2)
  | debug_loops_left, pos, dir, vel, travel_distance =>
    match collision_mesh
        (Line.mk pos (pos + (travel_distance + margin) • dir)) sphere_radius with
    | none => Except.ok (pos + travel_distance • dir, vel)
    | some collision =>
      if travel_distance <
          safe_collision_point_distance margin collision.intersection.point pos then
        Except.ok (pos + travel_distance • dir, vel)
      else
        match debug_loops_left with
        | 0 => Except.error ("Collision loop took 3 iterations")
        | n + 1 =>
          collisionLoop collision_mesh margin speed sphere_radius n
            (pos + safe_collision_point_distance margin collision.intersection.point pos • dir)
            ((Vec2.normalized vel).reflected_on_normal collision.intersection.normal)
            (speed • (Vec2.normalized vel).reflected_on_normal collision.intersection.normal)
            (travel_distance - safe_collision_point_distance margin collision.intersection.point pos)

/-- Translated from `scenes.rs` lines 380-425:
`move_sphere_with_full_elastic_collision`. Speed, direction and the
travel distance are computed once from the input velocity; the loop is
entered with two remaining loop-backs (the source counter errors when it
reaches 3). -/
noncomputable def move_sphere_with_full_elastic_collision
    (collision_mesh : CollisionMesh) (margin : ℝ) (pos : WorldPoint) (vel : Vec2)
    (sphere_radius delta_time : ℝ) : Except String (WorldPoint × Vec2) :=
  collisionLoop collision_mesh margin vel.magnitude sphere_radius 2
    pos vel.normalized vel (vel.magnitude * delta_time)

/-- Measurement definition mirroring `collisionLoop` iteration for
iteration: the number of collisions the loop processes (it is capped by
the loop bound itself, since the source aborts after the third). -/
noncomputable def collisionLoopCount (collision_mesh : CollisionMesh)
    (margin speed sphere_radius : ℝ) :
    Nat → Vec2 → Vec2 → Vec2 → ℝ → Nat
  | debug_loops_left, pos, dir, vel, travel_distance =>
    match collision_mesh
        (Line.mk pos (pos + (travel_distance + margin) • dir)) sphere_radius with
    | none => 0
    | some collision =>
      if travel_distance <
          safe_collision_point_distance margin collision.intersection.point pos then
        0
      else
        match debug_loops_left with
        | 0 => 1
        | n + 1 =>
          1 + collisionLoopCount collision_mesh margin speed sphere_radius n
            (pos + safe_collision_point_distance margin collision.intersection.point pos • dir)
            ((Vec2.normalized vel).reflected_on_normal collision.intersection.normal)
            (speed • (Vec2.normalized vel).reflected_on_normal collision.intersection.normal)
            (travel_distance - safe_collision_point_distance margin collision.intersection.point pos)

/-- The number of in-frame collisions processed by a full resolver
call (same initial state as `move_sphere_with_full_elastic_collision`). -/
noncomputable def collision_count (collision_mesh : CollisionMesh) (margin : ℝ)
    (pos vel : Vec2) (sphere_radius delta_time : ℝ) : Nat :=
  collisionLoopCount collision_mesh margin vel.magnitude sphere_radius 2
    pos vel.normalized vel (vel.magnitude * delta_time)

/-- Translated from `lib.rs` line 74: `const UNIT_SIZE: f32 = 16.0`. -/
def UNIT_SIZE : ℝ := 16

/-- Translated from `scenes.rs` line 3: `const PONGI_RADIUS: f32 = 7.5`. -/
def PONGI_RADIUS : ℝ := 7.5

/-- Translated from `scenes.rs` line 6:
`const WALL_THICKNESS: f32 = 0.5 * UNIT_SIZE`. -/
def WALL_THICKNESS : ℝ := 0.5 * UNIT_SIZE

/-- Translated from `scenes.rs` lines 9-14: the playing-field bounds
constant (note that its `top` is numerically smaller than its
`bottom`). -/
def FIELD_BOUNDS : Rect :=
  { left := -10 * UNIT_SIZE
    right := 10 * UNIT_SIZE
    top := -6 * UNIT_SIZE
    bottom := 6 * UNIT_SIZE }

/-- Translated from `scenes.rs` lines 219-224: the left field border. -/
def field_border_left : Rect :=
  { left := FIELD_BOUNDS.left - WALL_THICKNESS
    right := FIELD_BOUNDS.left
    top := FIELD_BOUNDS.top
    bottom := FIELD_BOUNDS.bottom }

/-- Translated from `scenes.rs` lines 225-230: the right field border. -/
def field_border_right : Rect :=
  { left := FIELD_BOUNDS.right
    right := FIELD_BOUNDS.right + WALL_THICKNESS
    top := FIELD_BOUNDS.top
    bottom := FIELD_BOUNDS.bottom }

/-- Translated from `scenes.rs` lines 231-236: the top field border. -/
def field_border_top : Rect :=
  { left := FIELD_BOUNDS.left - WALL_THICKNESS
    right := FIELD_BOUNDS.right + WALL_THICKNESS
    top := FIELD_BOUNDS.top - WALL_THICKNESS
    bottom := FIELD_BOUNDS.top }

/-- Translated from `scenes.rs` lines 237-242: the bottom field border. -/
def field_border_bottom : Rect :=
  { left := FIELD_BOUNDS.left - WALL_THICKNESS
    right := FIELD_BOUNDS.right + WALL_THICKNESS
    top := FIELD_BOUNDS.bottom
    bottom := FIELD_BOUNDS.bottom + WALL_THICKNESS }

/-- Translated from `scenes.rs` lines 280-284: the rectangles the
gameplay scene registers in the collision mesh, in `add_rect` order. -/
def playfield_walls : List Rect :=
  [field_border_left, field_border_right, field_border_top, field_border_bottom]

/-- Stated from the spec's words (section 3): the intended `Rect`
invariant, "left <= right and bottom <= top". -/
def rect_invariant_spec (r : Rect) : Prop :=
  r.left ≤ r.right ∧ r.bottom ≤ r.top

/-- Stated from the spec's words (section 4.1): the bottom edge of a
rectangle, as a fixed function of its bounds. -/
def bottom_edge_spec (r : Rect) : Line :=
  Line.mk (Vec2.mk r.left r.bottom) (Vec2.mk r.right r.bottom)

/-- Stated from the spec's words (section 4.1): the right edge of a
rectangle. -/
def right_edge_spec (r : Rect) : Line :=
  Line.mk (Vec2.mk r.right r.bottom) (Vec2.mk r.right r.top)

/-- Stated from the spec's words (section 4.1): the top edge of a
rectangle. -/
def top_edge_spec (r : Rect) : Line :=
  Line.mk (Vec2.mk r.right r.top) (Vec2.mk r.left r.top)

/-- Stated from the spec's words (section 4.1): the left edge of a
rectangle. -/
def left_edge_spec (r : Rect) : Line :=
  Line.mk (Vec2.mk r.left r.top) (Vec2.mk r.left r.bottom)

/-- Stated from the spec's words: twice the signed area enclosed by a
segment list (shoelace sum); positive for a counter-clockwise loop. -/
def polygon_signed_area_doubled (segs : List Line) : ℝ :=
  (segs.map (fun s => s.start.x * s.stop.y - s.stop.x * s.start.y)).sum

/-- Translated from `scenes.rs` lines 170-181: the per-frame
`delta_time` computation of `GameplayScene::update_and_draw`
(zero while paused or while an error is recorded, otherwise the frame
delta scaled by the fast-time factor). -/
noncomputable def compute_delta_time (game_paused : Bool)
    (error_happened : Option String) (fast_time : ℤ) (time_delta : ℝ) : ℝ :=
  if game_paused || error_happened.isSome then 0
  else
    time_delta *
      (if fast_time = 0 then 1
       else if 0 < fast_time then ((fast_time : ℝ) + 1)
       else 1 / ((|fast_time| : ℝ) + 1))

/-- Physics-relevant slice of the `GameplayScene` state: the moving
body's position and velocity (`scenes.rs` lines 148-149). -/
structure GameplayState where
  pongi_pos : WorldPoint
  pongi_vel : Vec2

/-- Translated from `scenes.rs` lines 170-181 and 276-311: the physics
part of one `GameplayScene::update_and_draw` frame. The resolver is
called with the current position/velocity and `PONGI_RADIUS`; on error
the result is discarded (`unwrap_or_else` returns the pre-call pair),
the error is stored in the globals error flag, and the guarded
write-back block is skipped, so the scene state is unchanged. On
success the new position/velocity are committed and the flag is
cleared. -/
noncomputable def gameplay_physics_update (collision_mesh : CollisionMesh)
    (margin : ℝ) (game_paused : Bool) (fast_time : ℤ) (time_delta : ℝ)
    (error_in : Option String) (st : GameplayState) :
    GameplayState × Option String :=
  let delta_time := compute_delta_time game_paused error_in fast_time time_delta
  match move_sphere_with_full_elastic_collision collision_mesh margin
      st.pongi_pos st.pongi_vel PONGI_RADIUS delta_time with
  | Except.ok pv => (GameplayState.mk pv.1 pv.2, none)
  | Except.error e => (st, some e)

/-- A mesh (as abstracted sweep-cast query) that reports a hit at the
ray start with normal `(-1, 0)` whenever the ray starts on the y-axis,
and no hit otherwise. Used as a concrete test scenario. -/
noncomputable def mesh_backstep : CollisionMesh := fun ray _ =>
  if ray.start.x = 0 then
    some (SweepResult.mk "wall" 0 (Intersection.mk ray.start (Vec2.mk (-1) 0)))
  else none

/-- A mesh (as abstracted sweep-cast query) that always reports a hit at
the ray start with normal `(-1, 0)`: every iteration of the resolver
loop processes a collision, so the loop bound fires. Used as a concrete
test scenario. -/
def mesh_stuck : CollisionMesh := fun ray _ =>
  some (SweepResult.mk "wall" 0 (Intersection.mk ray.start (Vec2.mk (-1) 0)))

/-- A mesh (as abstracted sweep-cast query) that never reports a hit.
Used as a concrete test scenario. -/
def mesh_clear : CollisionMesh := fun _ _ => none

/-
Helper lemmas.
-/

@[simp]
theorem Vec2.mk_add_mk (a b c d : ℝ) :
    Vec2.mk a b + Vec2.mk c d = Vec2.mk (a + c) (b + d) :=
  rfl

@[simp]
theorem Vec2.mk_sub_mk (a b c d : ℝ) :
    Vec2.mk a b - Vec2.mk c d = Vec2.mk (a - c) (b - d) :=
  rfl

@[simp]
theorem Vec2.smul_mk (r a b : ℝ) :
    r • Vec2.mk a b = Vec2.mk (r * a) (r * b) :=
  rfl

@[simp]
theorem Vec2.add_x (a b : Vec2) : (a + b).x = a.x + b.x :=
  rfl

@[simp]
theorem Vec2.add_y (a b : Vec2) : (a + b).y = a.y + b.y :=
  rfl

@[simp]
theorem Vec2.sub_x (a b : Vec2) : (a - b).x = a.x - b.x :=
  rfl

@[simp]
theorem Vec2.sub_y (a b : Vec2) : (a - b).y = a.y - b.y :=
  rfl

@[simp]
theorem Vec2.smul_x (r : ℝ) (v : Vec2) : (r • v).x = r * v.x :=
  rfl

@[simp]
theorem Vec2.smul_y (r : ℝ) (v : Vec2) : (r • v).y = r * v.y :=
  rfl

theorem Vec2.magnitude_mk (a b : ℝ) :
    (Vec2.mk a b).magnitude = Real.sqrt (a * a + b * b) :=
  rfl

theorem Vec2.magnitude_nonneg (v : Vec2) : 0 ≤ v.magnitude :=
  Real.sqrt_nonneg _

theorem Vec2.magnitude_eq_sqrt_dot (v : Vec2) :
    v.magnitude = Real.sqrt (Vec2.dot v v) :=
  rfl

theorem Vec2.magnitude_eq_zero_iff (v : Vec2) :
    v.magnitude = 0 ↔ v = Vec2.mk 0 0 := by
  constructor
  · intro h
    have hx : v.x * v.x + v.y * v.y ≤ 0 := Real.sqrt_eq_zero'.mp h
    have hx2 : v.x * v.x + v.y * v.y = 0 :=
      le_antisymm hx (add_nonneg (mul_self_nonneg _) (mul_self_nonneg _))
    have h1 : v.x = 0 := by nlinarith [mul_self_nonneg v.x, mul_self_nonneg v.y]
    have h2 : v.y = 0 := by nlinarith [mul_self_nonneg v.x, mul_self_nonneg v.y]
    ext <;> simp [h1, h2]
  · intro h
    subst h
    simp [Vec2.magnitude_mk]

theorem Vec2.magnitude_smul (c : ℝ) (v : Vec2) :
    (c • v).magnitude = |c| * v.magnitude := by
  have h : (c • v).x * (c • v).x + (c • v).y * (c • v).y
      = (c * c) * (v.x * v.x + v.y * v.y) := by
    simp only [Vec2.smul_x, Vec2.smul_y]
    ring
  rw [Vec2.magnitude, h, Real.sqrt_mul (mul_self_nonneg c),
    Real.sqrt_mul_self_eq_abs]
  rfl

theorem Vec2.sq_magnitude (v : Vec2) :
    v.magnitude * v.magnitude = v.x * v.x + v.y * v.y :=
  Real.mul_self_sqrt (add_nonneg (mul_self_nonneg _) (mul_self_nonneg _))

theorem Vec2.magnitude_normalized (v : Vec2) (h : v ≠ Vec2.mk 0 0) :
    v.normalized.magnitude = 1 := by
  have hm : v.magnitude ≠ 0 := fun h0 => h ((Vec2.magnitude_eq_zero_iff v).mp h0)
  have hexp : v.x / v.magnitude * (v.x / v.magnitude)
      + v.y / v.magnitude * (v.y / v.magnitude)
      = (v.x * v.x + v.y * v.y) / (v.magnitude * v.magnitude) := by
    field_simp
  rw [Vec2.normalized, Vec2.magnitude_mk, hexp, ← Vec2.sq_magnitude,
    div_self (mul_ne_zero hm hm), Real.sqrt_one]

theorem Vec2.dot_reflected_self (d n : Vec2) (h : Vec2.dot n n = 1) :
    Vec2.dot (d.reflected_on_normal n) (d.reflected_on_normal n) = Vec2.dot d d := by
  simp only [Vec2.reflected_on_normal, Vec2.dot, Vec2.sub_x, Vec2.sub_y,
    Vec2.smul_x, Vec2.smul_y] at *
  linear_combination (4 * (d.x * n.x + d.y * n.y) ^ 2) * h

theorem Vec2.magnitude_reflected (d n : Vec2) (h : n.magnitude = 1) :
    (d.reflected_on_normal n).magnitude = d.magnitude := by
  have hn : Vec2.dot n n = 1 := by
    have := Vec2.sq_magnitude n
    rw [h] at this
    simpa [Vec2.dot] using this.symm
  rw [Vec2.magnitude_eq_sqrt_dot, Vec2.magnitude_eq_sqrt_dot,
    Vec2.dot_reflected_self d n hn]

theorem Vec2.travel_smul_normalized (vel : Vec2) (dt : ℝ) :
    (vel.magnitude * dt) • vel.normalized = dt • vel := by
  by_cases hv : vel = Vec2.mk 0 0
  · subst hv
    simp [Vec2.normalized, Vec2.magnitude_mk]
  · have hm : vel.magnitude ≠ 0 :=
      fun h0 => hv ((Vec2.magnitude_eq_zero_iff vel).mp h0)
    ext <;> simp only [Vec2.normalized, Vec2.smul_x, Vec2.smul_y] <;> field_simp <;> ring

theorem collisionLoop_none (collision_mesh : CollisionMesh)
    (margin speed sphere_radius : ℝ) (fuel : Nat) (pos dir vel : Vec2) (travel : ℝ)
    (h : collision_mesh (Line.mk pos (pos + (travel + margin) • dir)) sphere_radius
      = none) :
    collisionLoop collision_mesh margin speed sphere_radius fuel pos dir vel travel
      = Except.ok (pos + travel • dir, vel) := by
  rw [collisionLoop]
  simp only [h]

theorem collisionLoop_break (collision_mesh : CollisionMesh)
    (margin speed sphere_radius : ℝ) (fuel : Nat) (pos dir vel : Vec2) (travel : ℝ)
    (c : SweepResult)
    (h : collision_mesh (Line.mk pos (pos + (travel + margin) • dir)) sphere_radius
      = some c)
    (hb : travel < safe_collision_point_distance margin c.intersection.point pos) :
    collisionLoop collision_mesh margin speed sphere_radius fuel pos dir vel travel
      = Except.ok (pos + travel • dir, vel) := by
  rw [collisionLoop]
  simp only [h, hb, if_true]

theorem collisionLoop_overflow (collision_mesh : CollisionMesh)
    (margin speed sphere_radius : ℝ) (pos dir vel : Vec2) (travel : ℝ)
    (c : SweepResult)
    (h : collision_mesh (Line.mk pos (pos + (travel + margin) • dir)) sphere_radius
      = some c)
    (hb : ¬ travel < safe_collision_point_distance margin c.intersection.point pos) :
    collisionLoop collision_mesh margin speed sphere_radius 0 pos dir vel travel
      = Except.error ("Collision loop took 3 iterations") := by
  rw [collisionLoop]
  simp only [h, hb, if_false]

theorem collisionLoop_step (collision_mesh : CollisionMesh)
    (margin speed sphere_radius : ℝ) (n : Nat) (pos dir vel : Vec2) (travel : ℝ)
    (c : SweepResult)
    (h : collision_mesh (Line.mk pos (pos + (travel + margin) • dir)) sphere_radius
      = some c)
    (hb : ¬ travel < safe_collision_point_distance margin c.intersection.point pos) :
    collisionLoop collision_mesh margin speed sphere_radius (n + 1) pos dir vel travel
      = collisionLoop collision_mesh margin speed sphere_radius n
          (pos + safe_collision_point_distance margin c.intersection.point pos • dir)
          ((Vec2.normalized vel).reflected_on_normal c.intersection.normal)
          (speed • (Vec2.normalized vel).reflected_on_normal c.intersection.normal)
          (travel - safe_collision_point_distance margin c.intersection.point pos) := by
  conv_lhs => rw [collisionLoop]
  simp only [h, hb, if_false]

theorem collisionLoopCount_none (collision_mesh : CollisionMesh)
    (margin speed sphere_radius : ℝ) (fuel : Nat) (pos dir vel : Vec2) (travel : ℝ)
    (h : collision_mesh (Line.mk pos (pos + (travel + margin) • dir)) sphere_radius
      = none) :
    collisionLoopCount collision_mesh margin speed sphere_radius fuel pos dir vel travel
      = 0 := by
  rw [collisionLoopCount]
  simp only [h]

theorem collisionLoopCount_break (collision_mesh : CollisionMesh)
    (margin speed sphere_radius : ℝ) (fuel : Nat) (pos dir vel : Vec2) (travel : ℝ)
    (c : SweepResult)
    (h : collision_mesh (Line.mk pos (pos + (travel + margin) • dir)) sphere_radius
      = some c)
    (hb : travel < safe_collision_point_distance margin c.intersection.point pos) :
    collisionLoopCount collision_mesh margin speed sphere_radius fuel pos dir vel travel
      = 0 := by
  rw [collisionLoopCount]
  simp only [h, hb, if_true]

theorem collisionLoopCount_overflow (collision_mesh : CollisionMesh)
    (margin speed sphere_radius : ℝ) (pos dir vel : Vec2) (travel : ℝ)
    (c : SweepResult)
    (h : collision_mesh (Line.mk pos (pos + (travel + margin) • dir)) sphere_radius
      = some c)
    (hb : ¬ travel < safe_collision_point_distance margin c.intersection.point pos) :
    collisionLoopCount collision_mesh margin speed sphere_radius 0 pos dir vel travel
      = 1 := by
  rw [collisionLoopCount]
  simp only [h, hb, if_false]

theorem collisionLoopCount_step (collision_mesh : CollisionMesh)
    (margin speed sphere_radius : ℝ) (n : Nat) (pos dir vel : Vec2) (travel : ℝ)
    (c : SweepResult)
    (h : collision_mesh (Line.mk pos (pos + (travel + margin) • dir)) sphere_radius
      = some c)
    (hb : ¬ travel < safe_collision_point_distance margin c.intersection.point pos) :
    collisionLoopCount collision_mesh margin speed sphere_radius (n + 1) pos dir vel travel
      = 1 + collisionLoopCount collision_mesh margin speed sphere_radius n
          (pos + safe_collision_point_distance margin c.intersection.point pos • dir)
          ((Vec2.normalized vel).reflected_on_normal c.intersection.normal)
          (speed • (Vec2.normalized vel).reflected_on_normal c.intersection.normal)
          (travel - safe_collision_point_distance margin c.intersection.point pos) := by
  conv_lhs => rw [collisionLoopCount]
  simp only [h, hb, if_false]

theorem collisionLoop_count_spec (collision_mesh : CollisionMesh)
    (margin speed sphere_radius : ℝ) :
    ∀ fuel (pos dir vel : Vec2) (travel : ℝ),
      collisionLoopCount collision_mesh margin speed sphere_radius fuel pos dir vel travel
        ≤ fuel + 1 ∧
      (collisionLoop collision_mesh margin speed sphere_radius fuel pos dir vel travel
          = Except.error ("Collision loop took 3 iterations") ↔
        collisionLoopCount collision_mesh margin speed sphere_radius fuel pos dir vel travel
          = fuel + 1) ∧
      ((∃ p v, collisionLoop collision_mesh margin speed sphere_radius fuel pos dir vel travel
          = Except.ok (p, v)) ↔
        collisionLoopCount collision_mesh margin speed sphere_radius fuel pos dir vel travel
          ≤ fuel) := by
  intro fuel
  induction fuel with
  | zero =>
    intro pos dir vel travel
    cases h : collision_mesh (Line.mk pos (pos + (travel + margin) • dir)) sphere_radius with
    | none =>
      rw [collisionLoop_none _ _ _ _ _ _ _ _ _ h, collisionLoopCount_none _ _ _ _ _ _ _ _ _ h]
      simp
    | some c =>
      by_cases hb : travel < safe_collision_point_distance margin c.intersection.point pos
      · rw [collisionLoop_break _ _ _ _ _ _ _ _ _ _ h hb,
          collisionLoopCount_break _ _ _ _ _ _ _ _ _ _ h hb]
        simp
      · rw [collisionLoop_overflow _ _ _ _ _ _ _ _ _ h hb,
          collisionLoopCount_overflow _ _ _ _ _ _ _ _ _ h hb]
        simp
  | succ n ih =>
    intro pos dir vel travel
    cases h : collision_mesh (Line.mk pos (pos + (travel + margin) • dir)) sphere_radius with
    | none =>
      rw [collisionLoop_none _ _ _ _ _ _ _ _ _ h, collisionLoopCount_none _ _ _ _ _ _ _ _ _ h]
      simp
    | some c =>
      by_cases hb : travel < safe_collision_point_distance margin c.intersection.point pos
      · rw [collisionLoop_break _ _ _ _ _ _ _ _ _ _ h hb,
          collisionLoopCount_break _ _ _ _ _ _ _ _ _ _ h hb]
        simp
      · rw [collisionLoop_step _ _ _ _ _ _ _ _ _ _ h hb,
          collisionLoopCount_step _ _ _ _ _ _ _ _ _ _ h hb]
        obtain ⟨ih1, ih2, ih3⟩ := ih
          (pos + safe_collision_point_distance margin c.intersection.point pos • dir)
          ((Vec2.normalized vel).reflected_on_normal c.intersection.normal)
          (speed • (Vec2.normalized vel).reflected_on_normal c.intersection.normal)
          (travel - safe_collision_point_distance margin c.intersection.point pos)
        refine ⟨by omega, ?_, ?_⟩
        · rw [ih2]
          omega
        · rw [ih3]
          omega

theorem collisionLoop_ok_magnitude (collision_mesh : CollisionMesh)
    (margin speed sphere_radius : ℝ)
    (hn : ∀ ray r c, collision_mesh ray r = some c →
      Vec2.magnitude c.intersection.normal = 1) :
    ∀ fuel (pos dir vel : Vec2) (travel : ℝ) (p v : Vec2),
      vel.magnitude = speed →
      collisionLoop collision_mesh margin speed sphere_radius fuel pos dir vel travel
        = Except.ok (p, v) →
      v.magnitude = speed := by
  intro fuel
  induction fuel with
  | zero =>
    intro pos dir vel travel p v hvel hok
    cases h : collision_mesh (Line.mk pos (pos + (travel + margin) • dir)) sphere_radius with
    | none =>
      rw [collisionLoop_none _ _ _ _ _ _ _ _ _ h] at hok
      cases hok
      exact hvel
    | some c =>
      by_cases hb : travel < safe_collision_point_distance margin c.intersection.point pos
      · rw [collisionLoop_break _ _ _ _ _ _ _ _ _ _ h hb] at hok
        cases hok
        exact hvel
      · rw [collisionLoop_overflow _ _ _ _ _ _ _ _ _ h hb] at hok
        cases hok
  | succ n ih =>
    intro pos dir vel travel p v hvel hok
    cases h : collision_mesh (Line.mk pos (pos + (travel + margin) • dir)) sphere_radius with
    | none =>
      rw [collisionLoop_none _ _ _ _ _ _ _ _ _ h] at hok
      cases hok
      exact hvel
    | some c =>
      by_cases hb : travel < safe_collision_point_distance margin c.intersection.point pos
      · rw [collisionLoop_break _ _ _ _ _ _ _ _ _ _ h hb] at hok
        cases hok
        exact hvel
      · rw [collisionLoop_step _ _ _ _ _ _ _ _ _ _ h hb] at hok
        refine ih _ _ _ _ _ _ ?_ hok
        have hspeed : 0 ≤ speed := hvel ▸ Vec2.magnitude_nonneg vel
        by_cases hv : vel = Vec2.mk 0 0
        · have hs0 : speed = 0 := by
            rw [← hvel, hv]
            simp [Vec2.magnitude_mk]
          rw [Vec2.magnitude_smul, hs0]
          simp
        · rw [Vec2.magnitude_smul,
            Vec2.magnitude_reflected _ _ (hn _ _ _ h),
            Vec2.magnitude_normalized vel hv, abs_of_nonneg hspeed, mul_one]

theorem move_sphere_first_query_clear (collision_mesh : CollisionMesh)
    (margin : ℝ) (pos vel : Vec2) (sphere_radius delta_time : ℝ)
    (h : collision_mesh
        (Line.mk pos (pos + (vel.magnitude * delta_time + margin) • vel.normalized))
        sphere_radius = none
      ∨ ∃ c, collision_mesh
          (Line.mk pos (pos + (vel.magnitude * delta_time + margin) • vel.normalized))
          sphere_radius = some c ∧
        vel.magnitude * delta_time
          < safe_collision_point_distance margin c.intersection.point pos) :
    move_sphere_with_full_elastic_collision collision_mesh margin pos vel
        sphere_radius delta_time
      = Except.ok (pos + (vel.magnitude * delta_time) • vel.normalized, vel) := by
  rw [move_sphere_with_full_elastic_collision]
  rcases h with h | ⟨c, h, hb⟩
  · exact collisionLoop_none _ _ _ _ _ _ _ _ _ h
  · exact collisionLoop_break _ _ _ _ _ _ _ _ _ _ h hb

/-- C1: for every collision mesh (abstracted as its sweep-cast query),
position, velocity, radius and delta time, the resolver's reflection
loop processes at most 3 collisions; it returns the overflow error
exactly when a third in-frame collision is processed, and it returns
`Ok` exactly when at most two in-frame collisions are processed. -/
theorem C1_loop_bound (collision_mesh : CollisionMesh) (margin : ℝ)
    (pos vel : Vec2) (sphere_radius delta_time : ℝ) :
    collision_count collision_mesh margin pos vel sphere_radius delta_time ≤ 3 ∧
    (move_sphere_with_full_elastic_collision collision_mesh margin pos vel
        sphere_radius delta_time
        = Except.error ("Collision loop took 3 iterations") ↔
      collision_count collision_mesh margin pos vel sphere_radius delta_time = 3) ∧
    ((∃ p v, move_sphere_with_full_elastic_collision collision_mesh margin pos vel
        sphere_radius delta_time = Except.ok (p, v)) ↔
      collision_count collision_mesh margin pos vel sphere_radius delta_time ≤ 2) := by
  obtain ⟨h1, h2, h3⟩ := collisionLoop_count_spec collision_mesh margin
    vel.magnitude sphere_radius 2 pos vel.normalized vel (vel.magnitude * delta_time)
  exact ⟨h1, h2, h3⟩

/-- C2: for delta time > 0, if the resolver succeeds then the magnitude
of the returned velocity equals the magnitude of the input velocity,
for any number of in-frame reflections (the sweep-cast is assumed to
return unit normals, as the spec's data model states). -/
theorem C2_speed_conservation (collision_mesh : CollisionMesh) (margin : ℝ)
    (pos vel : Vec2) (sphere_radius delta_time : ℝ) (p v : Vec2)
    (hn : ∀ ray r c, collision_mesh ray r = some c →
      Vec2.magnitude c.intersection.normal = 1)
    (_hdt : 0 < delta_time)
    (hok : move_sphere_with_full_elastic_collision collision_mesh margin pos vel
      sphere_radius delta_time = Except.ok (p, v)) :
    v.magnitude = vel.magnitude := by
  exact collisionLoop_ok_magnitude collision_mesh margin vel.magnitude sphere_radius
    hn 2 pos vel.normalized vel (vel.magnitude * delta_time) p v rfl hok

theorem C2_speed_conservation_witness :
    (0 : ℝ) < 1 ∧ (Vec2.mk 3 4).magnitude = (Vec2.mk 3 4).magnitude := by
  refine ⟨by norm_num, ?_⟩
  exact C2_speed_conservation mesh_clear (1 / 100) (Vec2.mk 0 0) (Vec2.mk 3 4) 5 1
    (Vec2.mk 0 0 + ((Vec2.mk 3 4).magnitude * 1) • (Vec2.mk 3 4).normalized)
    (Vec2.mk 3 4)
    (fun ray r c hc => by simp [mesh_clear] at hc)
    (by norm_num)
    (move_sphere_first_query_clear mesh_clear (1 / 100) (Vec2.mk 0 0) (Vec2.mk 3 4) 5 1
      (Or.inl rfl))

/-- C4: if the first sweep-cast query finds no hit, or only a hit lying
beyond the remaining travel distance, the resolver returns exactly
`position + velocity * delta_time` as the new position and the velocity
unchanged. -/
theorem C4_pass_through_when_clear (collision_mesh : CollisionMesh)
    (margin : ℝ) (pos vel : Vec2) (sphere_radius delta_time : ℝ)
    (h : collision_mesh
        (Line.mk pos (pos + (vel.magnitude * delta_time + margin) • vel.normalized))
        sphere_radius = none
      ∨ ∃ c, collision_mesh
          (Line.mk pos (pos + (vel.magnitude * delta_time + margin) • vel.normalized))
          sphere_radius = some c ∧
        vel.magnitude * delta_time
          < safe_collision_point_distance margin c.intersection.point pos) :
    move_sphere_with_full_elastic_collision collision_mesh margin pos vel
        sphere_radius delta_time
      = Except.ok (pos + delta_time • vel, vel) := by
  rw [move_sphere_first_query_clear collision_mesh margin pos vel sphere_radius
    delta_time h, Vec2.travel_smul_normalized]

theorem C4_pass_through_when_clear_witness :
    move_sphere_with_full_elastic_collision mesh_clear (1 / 100)
        (Vec2.mk 0 0) (Vec2.mk 3 4) 5 2
      = Except.ok (Vec2.mk 0 0 + (2 : ℝ) • Vec2.mk 3 4, Vec2.mk 3 4) :=
  C4_pass_through_when_clear mesh_clear (1 / 100) (Vec2.mk 0 0) (Vec2.mk 3 4) 5 2
    (Or.inl rfl)

/-- C10: if the first sweep-cast query finds no hit, or only a hit
beyond the frame's travel distance, the returned velocity is exactly the
input velocity value (the identical vector), since the velocity variable
is only reassigned inside the loop body after the break/no-hit checks. -/
theorem C10_velocity_identity (collision_mesh : CollisionMesh)
    (margin : ℝ) (pos vel : Vec2) (sphere_radius delta_time : ℝ)
    (h : collision_mesh
        (Line.mk pos (pos + (vel.magnitude * delta_time + margin) • vel.normalized))
        sphere_radius = none
      ∨ ∃ c, collision_mesh
          (Line.mk pos (pos + (vel.magnitude * delta_time + margin) • vel.normalized))
          sphere_radius = some c ∧
        vel.magnitude * delta_time
          < safe_collision_point_distance margin c.intersection.point pos) :
    ∃ p, move_sphere_with_full_elastic_collision collision_mesh margin pos vel
        sphere_radius delta_time = Except.ok (p, vel) :=
  ⟨pos + (vel.magnitude * delta_time) • vel.normalized,
    move_sphere_first_query_clear collision_mesh margin pos vel sphere_radius
      delta_time h⟩

theorem C10_velocity_identity_witness :
    ∃ p, move_sphere_with_full_elastic_collision mesh_clear (1 / 100)
        (Vec2.mk 5 5) (Vec2.mk 1 2) 3 1 = Except.ok (p, Vec2.mk 1 2) :=
  C10_velocity_identity mesh_clear (1 / 100) (Vec2.mk 5 5) (Vec2.mk 1 2) 3 1
    (Or.inl rfl)

/-- C5 counterexample: the left field border wall constructed by the
gameplay scene violates the stated `Rect` invariant
(`left <= right and bottom <= top`): its `bottom` (96) exceeds its
`top` (-96). -/
theorem C5_counterexample : ¬ rect_invariant_spec field_border_left := by
  intro h
  have hbt := h.2
  norm_num [field_border_left, FIELD_BOUNDS, WALL_THICKNESS, UNIT_SIZE] at hbt

/-- C5 (amended): every `Rect` the gameplay scene registers as a wall in
the collision mesh satisfies `left <= right`, but the vertical bounds
are inverted relative to the stated invariant: each wall satisfies
`top <= bottom`, not `bottom <= top`. -/
theorem C5_walls_invariant_amended :
    playfield_walls.Forall (fun r => r.left ≤ r.right ∧ r.top ≤ r.bottom) := by
  simp only [playfield_walls, List.Forall]
  norm_num [field_border_left, field_border_right, field_border_top,
    field_border_bottom, FIELD_BOUNDS, WALL_THICKNESS, UNIT_SIZE]

/-- C8: `Rect::to_border_lines` returns exactly 4 segments, and for
every rectangle, segment 0 is the bottom edge, segment 1 the right
edge, segment 2 the top edge and segment 3 the left edge, each a fixed
function of the bounds regardless of their values. -/
theorem C8_border_lines_order (r : Rect) :
    r.to_border_lines.length = 4 ∧
    r.to_border_lines
      = [bottom_edge_spec r, right_edge_spec r, top_edge_spec r, left_edge_spec r] :=
  ⟨rfl, rfl⟩

/-- C9: the four border segments form a closed loop (the end point of
each segment is the start point of the next, cyclically), the loop
starts at the bottom-left corner, its shoelace sum is twice
`width * height`, and for a rectangle satisfying `left <= right` and
`bottom <= top` the traversal is counter-clockwise (nonnegative signed
area). -/
theorem C9_border_loop_closed_ccw (r : Rect) :
    (r.to_border_lines.map Line.stop = (r.to_border_lines.map Line.start).rotate 1) ∧
    (r.to_border_lines.map Line.start).head? = some (Vec2.mk r.left r.bottom) ∧
    polygon_signed_area_doubled r.to_border_lines
      = 2 * (r.right - r.left) * (r.top - r.bottom) ∧
    (r.left ≤ r.right → r.bottom ≤ r.top →
      0 ≤ polygon_signed_area_doubled r.to_border_lines) := by
  refine ⟨?_, rfl, ?_, ?_⟩
  · simp [Rect.to_border_lines, List.rotate]
  · simp only [polygon_signed_area_doubled, Rect.to_border_lines, List.map_cons,
      List.map_nil, List.sum_cons, List.sum_nil]
    ring
  · intro h1 h2
    have harea : polygon_signed_area_doubled r.to_border_lines
        = 2 * (r.right - r.left) * (r.top - r.bottom) := by
      simp only [polygon_signed_area_doubled, Rect.to_border_lines, List.map_cons,
        List.map_nil, List.sum_cons, List.sum_nil]
      ring
    rw [harea]
    have := sub_nonneg.mpr h1
    have := sub_nonneg.mpr h2
    positivity

theorem C9_border_loop_closed_ccw_witness :
    0 ≤ polygon_signed_area_doubled (Rect.mk 0 1 0 1).to_border_lines :=
  (C9_border_loop_closed_ccw (Rect.mk 0 1 0 1)).2.2.2 (by norm_num) (by norm_num)

theorem Vec2.magnitude_zero : (Vec2.mk (0:ℝ) 0).magnitude = 0 := by
  rw [Vec2.magnitude_mk]
  norm_num [Real.sqrt_zero]

theorem Vec2.normalized_zero : (Vec2.mk (0:ℝ) 0).normalized = Vec2.mk 0 0 := by
  rw [Vec2.normalized, Vec2.magnitude_zero]
  norm_num

theorem safe_collision_zero (margin : ℝ) :
    safe_collision_point_distance margin (Vec2.mk 0 0) (Vec2.mk 0 0) = 0 - margin := by
  rw [safe_collision_point_distance]
  norm_num [Vec2.mk_sub_mk, Vec2.magnitude_mk, Real.sqrt_zero]

theorem Vec2.reflected_zero (n : Vec2) :
    (Vec2.mk (0:ℝ) 0).reflected_on_normal n = Vec2.mk 0 0 := by
  rw [Vec2.reflected_on_normal, Vec2.dot]
  ext <;> simp

theorem collisionLoop_stuck (margin sphere_radius : ℝ) (hmargin : 0 < margin) :
    ∀ fuel (travel : ℝ), 0 ≤ travel →
      collisionLoop mesh_stuck margin 0 sphere_radius fuel
          (Vec2.mk 0 0) (Vec2.mk 0 0) (Vec2.mk 0 0) travel
        = Except.error ("Collision loop took 3 iterations") := by
  intro fuel
  induction fuel with
  | zero =>
    intro travel htravel
    refine collisionLoop_overflow _ _ _ _ _ _ _ _
      (SweepResult.mk "wall" 0 (Intersection.mk (Vec2.mk 0 0) (Vec2.mk (-1) 0)))
      rfl ?_
    rw [safe_collision_zero]
    intro hlt
    linarith
  | succ n ih =>
    intro travel htravel
    rw [collisionLoop_step _ _ _ _ _ _ _ _ _
      (SweepResult.mk "wall" 0 (Intersection.mk (Vec2.mk 0 0) (Vec2.mk (-1) 0)))
      rfl (by rw [safe_collision_zero]; intro hlt; linarith)]
    have e1 : (Vec2.mk (0:ℝ) 0)
        + safe_collision_point_distance margin (Vec2.mk 0 0) (Vec2.mk 0 0) • Vec2.mk 0 0
        = Vec2.mk 0 0 := by
      ext <;> simp
    have e2 : ((Vec2.mk (0:ℝ) 0).normalized).reflected_on_normal (Vec2.mk (-1) 0)
        = Vec2.mk 0 0 := by
      rw [Vec2.normalized_zero, Vec2.reflected_zero]
    have e3 : (0:ℝ) • (((Vec2.mk (0:ℝ) 0).normalized).reflected_on_normal (Vec2.mk (-1) 0))
        = Vec2.mk 0 0 := by
      rw [e2]
      ext <;> simp
    dsimp only
    rw [e1, e3, e2, safe_collision_zero]
    exact ih (travel - (0 - margin)) (by linarith)

theorem move_sphere_stuck_error :
    move_sphere_with_full_elastic_collision mesh_stuck (1 / 100)
        (Vec2.mk 0 0) (Vec2.mk 0 0) PONGI_RADIUS 0
      = Except.error ("Collision loop took 3 iterations") := by
  rw [move_sphere_with_full_elastic_collision, Vec2.magnitude_zero,
    Vec2.normalized_zero, zero_mul]
  exact collisionLoop_stuck (1 / 100) PONGI_RADIUS (by norm_num) 2 0 le_rfl

/-- C3 counterexample: the resolver does not clamp the advance distance
at zero. With a sweep-cast hit at the current position (distance 0, so
the pre-shortened distance is the negative value `-margin`), the loop
processes the collision and moves the body backward by the margin:
starting at the origin with velocity `(1, 0)` and `delta_time = 1`
(travel distance 1), the final position is `(-51/50, 0)` — the total
displacement `1/100 + 101/100` exceeds the frame's travel distance 1,
which is impossible if the advance were treated as zero when negative. -/
theorem C3_counterexample :
    safe_collision_point_distance (1 / 100) (Vec2.mk 0 0) (Vec2.mk 0 0) < 0 ∧
    move_sphere_with_full_elastic_collision mesh_backstep (1 / 100)
        (Vec2.mk 0 0) (Vec2.mk 1 0) 5 1
      = Except.ok (Vec2.mk (-(51 / 50)) 0, Vec2.mk (-1) 0) := by
  constructor
  · rw [safe_collision_zero]
    norm_num
  · have hm : (Vec2.mk (1:ℝ) 0).magnitude = 1 := by
      rw [Vec2.magnitude_mk]
      norm_num [Real.sqrt_one]
    have hd : (Vec2.mk (1:ℝ) 0).normalized = Vec2.mk 1 0 := by
      rw [Vec2.normalized, hm]
      norm_num
    rw [move_sphere_with_full_elastic_collision, hm, hd, one_mul]
    have h1 : mesh_backstep
        (Line.mk (Vec2.mk 0 0) (Vec2.mk 0 0 + ((1:ℝ) + 1 / 100) • Vec2.mk 1 0)) 5
        = some (SweepResult.mk "wall" 0 (Intersection.mk (Vec2.mk 0 0) (Vec2.mk (-1) 0))) := by
      simp [mesh_backstep]
    have hb1 : ¬ ((1:ℝ) < safe_collision_point_distance (1 / 100) (Vec2.mk 0 0) (Vec2.mk 0 0)) := by
      rw [safe_collision_zero]
      norm_num
    rw [collisionLoop_step _ _ _ _ _ _ _ _ _ _ h1 hb1]
    show collisionLoop mesh_backstep (1 / 100) 1 5 1
        (Vec2.mk 0 0 + safe_collision_point_distance (1 / 100) (Vec2.mk 0 0) (Vec2.mk 0 0) • Vec2.mk 1 0)
        (((Vec2.mk (1:ℝ) 0).normalized).reflected_on_normal (Vec2.mk (-1) 0))
        ((1:ℝ) • ((Vec2.mk (1:ℝ) 0).normalized).reflected_on_normal (Vec2.mk (-1) 0))
        (1 - safe_collision_point_distance (1 / 100) (Vec2.mk 0 0) (Vec2.mk 0 0))
      = Except.ok (Vec2.mk (-(51 / 50)) 0, Vec2.mk (-1) 0)
    have e2 : ((Vec2.mk (1:ℝ) 0).normalized).reflected_on_normal (Vec2.mk (-1) 0)
        = Vec2.mk (-1) 0 := by
      rw [hd, Vec2.reflected_on_normal, Vec2.dot]
      ext <;> norm_num
    have e1 : Vec2.mk (0:ℝ) 0
        + safe_collision_point_distance (1 / 100) (Vec2.mk 0 0) (Vec2.mk 0 0) • Vec2.mk 1 0
        = Vec2.mk (-(1 / 100)) 0 := by
      rw [safe_collision_zero]
      ext <;> norm_num
    have e3 : (1:ℝ) • Vec2.mk (-1:ℝ) 0 = Vec2.mk (-1) 0 := by
      ext <;> simp
    have e4 : (1:ℝ) - safe_collision_point_distance (1 / 100) (Vec2.mk 0 0) (Vec2.mk 0 0)
        = 101 / 100 := by
      rw [safe_collision_zero]
      norm_num
    rw [e1, e2, e3, e4]
    have h2 : mesh_backstep
        (Line.mk (Vec2.mk (-(1 / 100)) 0)
          (Vec2.mk (-(1 / 100)) 0 + ((101 / 100 : ℝ) + 1 / 100) • Vec2.mk (-1) 0)) 5
        = none := by
      norm_num [mesh_backstep]
    rw [collisionLoop_none _ _ _ _ _ _ _ _ _ h2]
    simp only [Vec2.smul_mk, Vec2.mk_add_mk, Except.ok.injEq, Prod.mk.injEq, Vec2.mk.injEq]
    norm_num

/-- C3 (amended): in an iteration of the resolver loop that processes a
collision, the body is advanced by exactly
`distance_to_hit - safety_margin` along the travel direction, with no
clamping at zero; that advance is negative (the body moves backward)
exactly when the hit lies closer to the current position than the
safety margin. -/
theorem C3_advance_not_clamped (collision_mesh : CollisionMesh)
    (margin speed sphere_radius : ℝ) (n : Nat) (pos dir vel : Vec2) (travel : ℝ)
    (c : SweepResult)
    (h : collision_mesh (Line.mk pos (pos + (travel + margin) • dir)) sphere_radius
      = some c)
    (hb : ¬ travel < safe_collision_point_distance margin c.intersection.point pos) :
    collisionLoop collision_mesh margin speed sphere_radius (n + 1) pos dir vel travel
      = collisionLoop collision_mesh margin speed sphere_radius n
          (pos + safe_collision_point_distance margin c.intersection.point pos • dir)
          ((Vec2.normalized vel).reflected_on_normal c.intersection.normal)
          (speed • (Vec2.normalized vel).reflected_on_normal c.intersection.normal)
          (travel - safe_collision_point_distance margin c.intersection.point pos) ∧
    (safe_collision_point_distance margin c.intersection.point pos < 0 ↔
      (c.intersection.point - pos).magnitude < margin) := by
  refine ⟨collisionLoop_step _ _ _ _ _ _ _ _ _ _ h hb, ?_⟩
  rw [safe_collision_point_distance]
  exact sub_neg

theorem C3_advance_not_clamped_witness :
    (collisionLoop mesh_backstep (1 / 100) 1 5 1
        (Vec2.mk 0 0) (Vec2.mk 1 0) (Vec2.mk 1 0) 1
      = collisionLoop mesh_backstep (1 / 100) 1 5 0
          (Vec2.mk 0 0
            + safe_collision_point_distance (1 / 100) (Vec2.mk 0 0) (Vec2.mk 0 0) • Vec2.mk 1 0)
          ((Vec2.normalized (Vec2.mk 1 0)).reflected_on_normal (Vec2.mk (-1) 0))
          ((1:ℝ) • (Vec2.normalized (Vec2.mk 1 0)).reflected_on_normal (Vec2.mk (-1) 0))
          (1 - safe_collision_point_distance (1 / 100) (Vec2.mk 0 0) (Vec2.mk 0 0))) ∧
    (safe_collision_point_distance (1 / 100) (Vec2.mk 0 0) (Vec2.mk 0 0) < 0 ↔
      ((Vec2.mk (0:ℝ) 0) - Vec2.mk 0 0).magnitude < 1 / 100) :=
  C3_advance_not_clamped mesh_backstep (1 / 100) 1 5 0
    (Vec2.mk 0 0) (Vec2.mk 1 0) (Vec2.mk 1 0) 1
    (SweepResult.mk "wall" 0 (Intersection.mk (Vec2.mk 0 0) (Vec2.mk (-1) 0)))
    (by simp [mesh_backstep])
    (by rw [safe_collision_zero]; norm_num)

/-- C7: at a collision processed by the resolver loop, the new travel
direction is the mirror reflection of the incoming unit direction about
the hit's normal, `d - 2(d.n)n` (spelled out, not via
`reflected_on_normal`), and the velocity handed to the next iteration is
that direction scaled by the input speed `|velocity|`, unchanged by the
collision. -/
theorem C7_reflection_law (collision_mesh : CollisionMesh) (margin : ℝ)
    (pos vel : Vec2) (sphere_radius delta_time : ℝ) (c : SweepResult)
    (h : collision_mesh
        (Line.mk pos (pos + (vel.magnitude * delta_time + margin) • vel.normalized))
        sphere_radius = some c)
    (hb : ¬ vel.magnitude * delta_time
      < safe_collision_point_distance margin c.intersection.point pos) :
    move_sphere_with_full_elastic_collision collision_mesh margin pos vel
        sphere_radius delta_time
      = collisionLoop collision_mesh margin vel.magnitude sphere_radius 1
          (pos + safe_collision_point_distance margin c.intersection.point pos • vel.normalized)
          (vel.normalized
            - (2 * Vec2.dot vel.normalized c.intersection.normal) • c.intersection.normal)
          (vel.magnitude • (vel.normalized
            - (2 * Vec2.dot vel.normalized c.intersection.normal) • c.intersection.normal))
          (vel.magnitude * delta_time
            - safe_collision_point_distance margin c.intersection.point pos) := by
  rw [move_sphere_with_full_elastic_collision,
    collisionLoop_step _ _ _ _ _ _ _ _ _ _ h hb]
  rfl

theorem C7_reflection_law_witness :
    move_sphere_with_full_elastic_collision mesh_backstep (1 / 100)
        (Vec2.mk 0 0) (Vec2.mk 1 0) 5 1
      = collisionLoop mesh_backstep (1 / 100) (Vec2.mk (1:ℝ) 0).magnitude 5 1
          (Vec2.mk 0 0
            + safe_collision_point_distance (1 / 100) (Vec2.mk 0 0) (Vec2.mk 0 0)
              • (Vec2.mk (1:ℝ) 0).normalized)
          ((Vec2.mk (1:ℝ) 0).normalized
            - (2 * Vec2.dot (Vec2.mk (1:ℝ) 0).normalized (Vec2.mk (-1) 0)) • Vec2.mk (-1) 0)
          ((Vec2.mk (1:ℝ) 0).magnitude • ((Vec2.mk (1:ℝ) 0).normalized
            - (2 * Vec2.dot (Vec2.mk (1:ℝ) 0).normalized (Vec2.mk (-1) 0)) • Vec2.mk (-1) 0))
          ((Vec2.mk (1:ℝ) 0).magnitude * 1
            - safe_collision_point_distance (1 / 100) (Vec2.mk 0 0) (Vec2.mk 0 0)) :=
  C7_reflection_law mesh_backstep (1 / 100) (Vec2.mk 0 0) (Vec2.mk 1 0) 5 1
    (SweepResult.mk "wall" 0 (Intersection.mk (Vec2.mk 0 0) (Vec2.mk (-1) 0)))
    (by simp [mesh_backstep])
    (by
      rw [safe_collision_zero]
      have := Vec2.magnitude_nonneg (Vec2.mk (1:ℝ) 0)
      push_neg
      linarith)

/-- C6: whenever the resolver returns an error, the gameplay scene's
physics update leaves the body's position and velocity at their
pre-call values and records the error in the globals error flag; and
while the error flag is set, the frame's `delta_time` is computed as 0,
freezing physics updates. -/
theorem C6_error_atomicity (collision_mesh : CollisionMesh) (margin : ℝ)
    (game_paused : Bool) (fast_time : ℤ) (time_delta : ℝ)
    (error_in : Option String) (st : GameplayState) :
    (∀ e, move_sphere_with_full_elastic_collision collision_mesh margin
        st.pongi_pos st.pongi_vel PONGI_RADIUS
        (compute_delta_time game_paused error_in fast_time time_delta)
        = Except.error e →
      gameplay_physics_update collision_mesh margin game_paused fast_time
        time_delta error_in st = (st, some e)) ∧
    (error_in.isSome →
      compute_delta_time game_paused error_in fast_time time_delta = 0) := by
  constructor
  · intro e he
    rw [gameplay_physics_update]
    simp only [he]
  · intro hs
    rw [compute_delta_time]
    simp [hs]

theorem C6_error_atomicity_witness :
    gameplay_physics_update mesh_stuck (1 / 100) false 0 1 (some ("x"))
        (GameplayState.mk (Vec2.mk 0 0) (Vec2.mk 0 0))
      = (GameplayState.mk (Vec2.mk 0 0) (Vec2.mk 0 0),
         some ("Collision loop took 3 iterations")) ∧
    compute_delta_time false (some ("x")) 0 1 = 0 := by
  have hdt : compute_delta_time false (some ("x")) 0 1 = 0 := by
    rw [compute_delta_time]
    simp
  refine ⟨?_, (C6_error_atomicity mesh_stuck (1 / 100) false 0 1 (some ("x"))
    (GameplayState.mk (Vec2.mk 0 0) (Vec2.mk 0 0))).2 rfl⟩
  refine (C6_error_atomicity mesh_stuck (1 / 100) false 0 1 (some ("x"))
    (GameplayState.mk (Vec2.mk 0 0) (Vec2.mk 0 0))).1
    ("Collision loop took 3 iterations") ?_
  show move_sphere_with_full_elastic_collision mesh_stuck (1 / 100)
      (Vec2.mk 0 0) (Vec2.mk 0 0) PONGI_RADIUS
      (compute_delta_time false (some ("x")) 0 1)
    = Except.error ("Collision loop took 3 iterations")
  rw [hdt]
  exact move_sphere_stuck_error
